/-
Verification development for the flexybuy credit service.

The definitions below are a shallow embedding, over exact rational (and,
where square roots are involved, real) arithmetic, of the statement-analysis
and credit-limit code in `src/metric_analyzer/app.py` and
`src/credit_limit_engine/app.py`.  Python floats are modelled as rationals;
fallible code is modelled with `Except`.
-/
import Mathlib

set_option maxHeartbeats 1000000

/-! ### Outlier filter (src/metric_analyzer/app.py, lines 64-79)

`statistics.mean` and `statistics.stdev` over a list of floats are modelled
as the exact sample mean and sample standard deviation over `ℚ`;
`statistics.stdev` uses the n-1 (sample) denominator. -/

/-- `statistics.mean data_points`: arithmetic mean of a list. -/
def sampleMean (data_points : List ℚ) : ℚ :=
  data_points.sum / data_points.length

/-- Square of `statistics.stdev data_points`: sum of squared deviations from
the mean divided by `n - 1` (sample variance). -/
def sampleVariance (data_points : List ℚ) : ℚ :=
  (data_points.map (fun p => (p - sampleMean data_points) ^ 2)).sum /
    ((data_points.length : ℚ) - 1)

/-- `statistics.stdev data_points`: sample standard deviation, the square
root of `sampleVariance`. -/
noncomputable def sampleStdev (data_points : List ℚ) : ℝ :=
  Real.sqrt (sampleVariance data_points)

/-- The source's outlier test `abs(p - mean) > 3 * stdev` in the equivalent
squared form `(p - mean)^2 > 9 * variance`, which is decidable over `ℚ`.
`exceeds_three_sigma_iff_stdev` below proves the two forms coincide. -/
def exceeds_three_sigma (mean variance p : ℚ) : Bool :=
  decide (9 * variance < (p - mean) ^ 2)

/-- `get_data_without_outliers` (src/metric_analyzer/app.py, lines 64-79).
Returns `(clean_data, outliers)`.  The Python set comprehension
`{p for p in data_points if ...}` is modelled by deduplicating the list of
flagged values; `clean_data` keeps the points not in that set. -/
def get_data_without_outliers (data_points : List ℚ) : List ℚ × List ℚ :=
  if data_points.length < 3 then (data_points, [])
  else
    let mean := sampleMean data_points
    let variance := sampleVariance data_points
    if variance = 0 then (data_points, [])
    else
      let outliers := (data_points.filter
        (fun p => exceeds_three_sigma mean variance p)).dedup
      let clean_data := data_points.filter (fun p => decide (p ∉ outliers))
      (clean_data, outliers)

/-! ### Bridging lemmas: the squared 3-sigma test matches the source's
stdev-based test, and the `variance = 0` guard matches `stdev == 0`. -/

theorem sampleVariance_nonneg (l : List ℚ) : 0 ≤ sampleVariance l := by
  cases l with
  | nil => simp [sampleVariance]
  | cons a t =>
    apply div_nonneg
    · apply List.sum_nonneg
      intro x hx
      obtain ⟨p, _, rfl⟩ := List.mem_map.mp hx
      positivity
    · have : (1 : ℚ) ≤ ((a :: t).length : ℚ) := by
        exact_mod_cast Nat.succ_le_of_lt (List.length_pos.mpr (by simp))
      linarith

theorem exceeds_three_sigma_iff_stdev (mean v p : ℚ) (hv : 0 ≤ v) :
    exceeds_three_sigma mean v p = true ↔
      3 * Real.sqrt (v : ℚ) < |(p : ℝ) - (mean : ℝ)| := by
  have h9 : ((9 : ℚ) : ℝ) * (v : ℝ) = (3 * Real.sqrt (v : ℚ)) ^ 2 := by
    rw [mul_pow, Real.sq_sqrt (by exact_mod_cast hv)]
    norm_num
  constructor
  · intro h
    have h' : (9 : ℚ) * v < (p - mean) ^ 2 := by
      simpa [exceeds_three_sigma] using h
    have hR : ((9 : ℚ) : ℝ) * (v : ℝ) < ((p : ℝ) - (mean : ℝ)) ^ 2 := by
      exact_mod_cast h'
    rw [h9] at hR
    have habs : ((p : ℝ) - mean) ^ 2 = |(p : ℝ) - mean| ^ 2 := (sq_abs _).symm
    rw [habs] at hR
    exact lt_of_pow_lt_pow_left₀ 2 (abs_nonneg _) hR
  · intro h
    have hR : (3 * Real.sqrt (v : ℚ)) ^ 2 < |(p : ℝ) - mean| ^ 2 := by
      apply pow_lt_pow_left₀ h (by positivity)
      norm_num
    rw [← h9, sq_abs] at hR
    have h' : (9 : ℚ) * v < (p - mean) ^ 2 := by exact_mod_cast hR
    simpa [exceeds_three_sigma] using h'

theorem sampleStdev_eq_zero_iff (l : List ℚ) :
    sampleStdev l = 0 ↔ sampleVariance l = 0 := by
  unfold sampleStdev
  rw [Real.sqrt_eq_zero (by exact_mod_cast sampleVariance_nonneg l)]
  exact_mod_cast Iff.rfl

/-! ### Helper lemmas about the outlier filter -/

theorem sq_dev_sum_eq (l : List ℚ) (h3 : 3 ≤ l.length) :
    (l.map (fun p => (p - sampleMean l) ^ 2)).sum =
      ((l.length : ℚ) - 1) * sampleVariance l := by
  have hne : ((l.length : ℚ) - 1) ≠ 0 := by
    have : (3 : ℚ) ≤ (l.length : ℚ) := by exact_mod_cast h3
    linarith
  rw [sampleVariance, mul_div_cancel₀ _ hne]

theorem not_flagged_of_length_le_ten (l : List ℚ) (h3 : 3 ≤ l.length)
    (h10 : l.length ≤ 10) (p : ℚ) (hp : p ∈ l) :
    exceeds_three_sigma (sampleMean l) (sampleVariance l) p = false := by
  have hmem : (p - sampleMean l) ^ 2 ∈ l.map (fun q => (q - sampleMean l) ^ 2) :=
    List.mem_map_of_mem _ hp
  have hle : (p - sampleMean l) ^ 2 ≤
      (l.map (fun q => (q - sampleMean l) ^ 2)).sum := by
    apply List.single_le_sum _ _ hmem
    intro x hx
    obtain ⟨q, _, rfl⟩ := List.mem_map.mp hx
    positivity
  rw [sq_dev_sum_eq l h3] at hle
  have hv : 0 ≤ sampleVariance l := sampleVariance_nonneg l
  have hlen : ((l.length : ℚ) - 1) ≤ 9 := by
    have : (l.length : ℚ) ≤ 10 := by exact_mod_cast h10
    linarith
  have : (p - sampleMean l) ^ 2 ≤ 9 * sampleVariance l :=
    le_trans hle (by nlinarith)
  simp only [exceeds_three_sigma, decide_eq_false_iff_not, not_lt]
  exact this

theorem no_outliers_of_length_le_ten (l : List ℚ) (h10 : l.length ≤ 10) :
    get_data_without_outliers l = (l, []) := by
  unfold get_data_without_outliers
  by_cases hlen : l.length < 3
  · simp [hlen]
  · have h3 : 3 ≤ l.length := Nat.le_of_not_lt hlen
    by_cases hv : sampleVariance l = 0
    · simp [hlen, hv]
    · have hfilter : l.filter
          (fun p => exceeds_three_sigma (sampleMean l) (sampleVariance l) p) = [] := by
        apply List.filter_eq_nil_iff.mpr
        intro p hp
        simp [not_flagged_of_length_le_ten l h3 h10 p hp]
      simp [hlen, hv, hfilter, List.filter_eq_self]

/-! ### KYC scoring (src/credit_limit_engine/app.py, lines 93-118)

`kyc_answers` is a Python dict of string keys to string answers, modelled as
an association list; `dict.get(key)` is `List.lookup`, and each marking
table `m.get(answer, default)` is a total function on `Option String` whose
wildcard arm is the table's default. -/

/-- `residence_map.get(answer, 1)`. -/
def residence_map (answer : Option String) : ℚ :=
  match answer with
  | some "More than 10 years" => 5
  | some "8 - 10 years" => 4
  | some "4 - 8 years" => 3
  | some "2 - 4 years" => 2
  | some "Less than 2 years" => 1
  | _ => 1

/-- `borrow_history_map.get(answer, 3)`. -/
def borrow_history_map (answer : Option String) : ℚ :=
  match answer with
  | some "Yes, but I paid it off" => 5
  | some "No, but I borrowed before" => 4
  | some "No" => 3
  | some "Yes, and I still owe money" => 1
  | _ => 3

/-- `repayment_ability_map.get(answer, 3)`. -/
def repayment_ability_map (answer : Option String) : ℚ :=
  match answer with
  | some "Yes, without delays or challenges" => 5
  | some "It\x27s difficult but I manage to pay" => 2
  | some "Sometimes I wasn\x27t able to pay back" => 0
  | some "Not applicable" => 3
  | _ => 3

/-- `income_map.get(answer, 0)`. -/
def income_map (answer : Option String) : ℚ :=
  match answer with
  | some "Above 1800 GHS" => 5
  | some "1401 GHS - 1800 GHS" => 4
  | some "1001 GHS - 1400 GHS" => 3
  | some "701 GHS - 1000 GHS" => 2
  | some "351 GHS - 700 GHS" => 1
  | some "Below 350 GHS" => 0
  | _ => 0

/-- `job_duration_map.get(answer, 1)`. -/
def job_duration_map (answer : Option String) : ℚ :=
  match answer with
  | some "More than 10 years" => 5
  | some "8 - 10 years" => 4
  | some "4 - 8 years" => 3
  | some "2 - 4 years" => 2
  | some "Less than 2 years" => 1
  | _ => 1

/-- `borrow_source_map.get(answer, 3)`. -/
def borrow_source_map (answer : Option String) : ℚ :=
  match answer with
  | some "Banks" => 5
  | some "Other Financial apps (digital)" => 5
  | some "Mobile Money providers (MTN, Telecel, AT)" => 4
  | some "Money lenders (physical / shop)" => 2
  | some "Friends or family" => 2
  | some "No applicable" => 3
  | _ => 3

/-- `calculate_kyc_scores(kyc_answers)`: returns the pair
`(character_score, capacity_score)`; an empty answer map short-circuits to
`(7.5, 10)`. -/
def calculate_kyc_scores (kyc_answers : List (String × String)) : ℚ × ℚ :=
  if kyc_answers = [] then (7.5, 10)
  else
    (residence_map (kyc_answers.lookup "residenceDuration") +
       borrow_history_map (kyc_answers.lookup "borrowingHistory") +
       repayment_ability_map (kyc_answers.lookup "repaymentAbility"),
     income_map (kyc_answers.lookup "monthlyIncomeRange") +
       job_duration_map (kyc_answers.lookup "jobDuration") +
       borrow_source_map (kyc_answers.lookup "borrowingSource"))

/-- `debt_honesty = 1 + (kyc_scores['capacity_score'] / 15) * 4`
(src/credit_limit_engine/app.py, line 145). -/
def debt_honesty_of (kyc_answers : List (String × String)) : ℚ :=
  1 + (calculate_kyc_scores kyc_answers).2 / 15 * 4

/-- `character = 1 + (kyc_scores['character_score'] / 15) * 4`
(src/credit_limit_engine/app.py, line 146). -/
def character_of (kyc_answers : List (String × String)) : ℚ :=
  1 + (calculate_kyc_scores kyc_answers).1 / 15 * 4

/-! ### Statement normalization and the fuzzy risk engine -/

/-- The latest-statement metric fields read by `calculate_initial_limit`
(src/credit_limit_engine/app.py, lines 141, 148-152); `analysisDate` is the
ISO timestamp string the statements are sorted by. -/
structure Statement where
  analysisDate : String
  avgMonthlyIncome : ℚ
  avgMonthlyExpenditure : ℚ
  avgLowestMonthlyBalance : ℚ
  balanceVolatility : ℚ
  disposableIncome : ℚ

/-- Normalization of the statement metrics into the `(dti, volatility,
min_balance)` fuzzy inputs (src/credit_limit_engine/app.py, lines 154-160):
income exactly zero forces `(1.0, 1.0, 0.0)`, otherwise each ratio over
income is clamped into `[0, 1]`. -/
def normalize_statement_inputs (latest_statement : Statement) : ℚ × ℚ × ℚ :=
  if latest_statement.avgMonthlyIncome = 0 then (1, 1, 0)
  else
    (min 1 (max 0 (latest_statement.avgMonthlyExpenditure /
        latest_statement.avgMonthlyIncome)),
     min 1 (max 0 (latest_statement.balanceVolatility /
        latest_statement.avgMonthlyIncome)),
     min 1 (max 0 (latest_statement.avgLowestMonthlyBalance /
        latest_statement.avgMonthlyIncome)))

/-- The five crisp values handed to fuzzy inference, in the order of the
`assess_risk` parameters: `(dti, volatility, min_balance, debt_honesty,
character)`. -/
def fuzzy_inputs_of (kyc_answers : List (String × String))
    (latest_statement : Statement) : ℚ × ℚ × ℚ × ℚ × ℚ :=
  let n := normalize_statement_inputs latest_statement
  (n.1, n.2.1, n.2.2, debt_honesty_of kyc_answers, character_of kyc_answers)

/-- `skfuzzy.trimf` with parameters `[a, b, c]` evaluated at a point:
the triangular membership function. -/
def trimf (a b c x : ℚ) : ℚ :=
  if x < a then 0
  else if x < b then (x - a) / (b - a)
  else if x = b then 1
  else if x ≤ c then (c - x) / (c - b)
  else 0

/-- Modelled from the spec: `assess_risk` runs Mamdani inference and
centroid defuzzification through the external `skfuzzy.control` machinery
(`ControlSystem` / `ControlSystemSimulation`), which is library code, not a
source file of this repository.  The membership functions and the rule base
are translated from src/credit_limit_engine/app.py lines 29-63; the
inference semantics (OR = max, AND = min, implication = min-clip,
aggregation = max, centroid sampled on the 0.01-step output universe)
follows spec section 4.6.  The `MinBalance` `med`/`high` terms are defined
in the source but occur in no rule, so they do not appear here. -/
def assess_risk (dti volatility min_balance debt_honesty character : ℚ) : ℚ :=
  let dti_low := trimf 0 0 0.3 dti
  let dti_med := trimf 0.2 0.5 0.8 dti
  let dti_high := trimf 0.6 1 1 dti
  let vol_stable := trimf 0 0 0.4 volatility
  let vol_moderate := trimf 0.3 0.5 0.7 volatility
  let vol_volatile := trimf 0.6 1 1 volatility
  let mb_low := trimf 0 0 0.3 min_balance
  let dh_poor := trimf 1 1 3 debt_honesty
  let dh_fair := trimf 2 3 4 debt_honesty
  let dh_good := trimf 3 5 5 debt_honesty
  let ch_weak := trimf 1 1 3 character
  let ch_average := trimf 2 3 4 character
  let ch_strong := trimf 3 5 5 character
  let rule1 := max dti_high vol_volatile
  let rule2 := min mb_low (max dti_med vol_moderate)
  let rule3 := min (min dh_good ch_strong) dti_low
  let rule4 := max dh_poor ch_weak
  let rule5 := min (min dh_fair ch_average) vol_stable
  let act_low := rule3
  let act_medium := max rule2 rule5
  let act_high := max rule1 rule4
  let aggregated := fun x =>
    max (min act_low (trimf 0 0 0.4 x))
      (max (min act_medium (trimf 0.3 0.5 0.7 x))
        (min act_high (trimf 0.6 1 1 x)))
  let xs := (List.range 101).map (fun i => (i : ℚ) / 100)
  let num := (xs.map (fun x => x * aggregated x)).sum
  let den := (xs.map aggregated).sum
  num / den

/-! ### Credit limit calculation (src/credit_limit_engine/app.py, lines 13-19
and 122-195) -/

/-- `CONFIDENCE_SCORE` default `0.8`. -/
def CONFIDENCE_SCORE : ℚ := 0.8

/-- `MODEL_VERSION`. -/
def MODEL_VERSION : String := "v1.0.0"

/-- `MINIMUM_CREDIT_LIMIT`. -/
def MINIMUM_CREDIT_LIMIT : ℤ := 50

/-- `MAXIMUM_CREDIT_LIMIT`. -/
def MAXIMUM_CREDIT_LIMIT : ℤ := 1000

/-- `initial_limit = disposable_income * CONFIDENCE_SCORE * user_risk_score`
(src/credit_limit_engine/app.py, line 170). -/
def initial_limit (disposable_income confidence_score user_risk_score : ℚ) : ℚ :=
  disposable_income * confidence_score * user_risk_score

/-- Python `int()` applied to a float: truncation toward zero. -/
def pyInt (q : ℚ) : ℤ :=
  if q < 0 then ⌈q⌉ else ⌊q⌋

/-- The business clamp (src/credit_limit_engine/app.py, lines 173-178). -/
def apply_business_rules (limit : ℚ) : ℤ :=
  if limit < (MINIMUM_CREDIT_LIMIT : ℚ) then MINIMUM_CREDIT_LIMIT
  else if (MAXIMUM_CREDIT_LIMIT : ℚ) < limit then MAXIMUM_CREDIT_LIMIT
  else pyInt limit

/-! ### The credit limit engine (src/credit_limit_engine/app.py, lines 122-195) -/

/-- The parts of a deserialized user profile that `calculate_initial_limit`
reads.  A missing `userId` is `none` (Python `profile.get('userId')` gives
`None`); absent `kycAnswers` / `statementMetrics.perStatement` default to
empty, as in the source's `.get(..., {})` / `.get(..., [])`. -/
structure Profile where
  userId : Option String
  kycAnswers : List (String × String)
  perStatement : List Statement

/-- The item written to the credit limit table (src/credit_limit_engine/app.py,
lines 184-189).  `scoreLastCalculatedAt` (a wall-clock timestamp) is not
modelled. -/
structure CreditLimitRecord where
  userId : String
  creditLimit : ℤ
  modelVersion : String
deriving DecidableEq

/-- `sorted(per_statement_list, key=analysisDate, reverse=True)[0]`: the
first element of the list, in original order, with the lexicographically
largest `analysisDate` (Python's sort is stable). -/
def latest_of (s : Statement) (rest : List Statement) : Statement :=
  rest.foldl (fun best t => if best.analysisDate < t.analysisDate then t else best) s

/-- `calculate_initial_limit(profile)` (src/credit_limit_engine/app.py,
lines 122-192).  The two `raise ValueError` paths are `Except.error`; the
success path returns the record that is written to the credit limit table.
Python's `if not user_id` is true for both a missing and an empty string
`userId`. -/
def calculate_initial_limit (profile : Profile) : Except String CreditLimitRecord :=
  let user_id := profile.userId.getD ""
  if user_id = "" then .error "userId not found in the provided profile."
  else
    match profile.perStatement with
    | [] => .error "No statement analysis found in profile. Cannot calculate limit."
    | s :: rest =>
      let latest_statement := latest_of s rest
      let inputs := fuzzy_inputs_of profile.kycAnswers latest_statement
      let risk_score_output :=
        assess_risk inputs.1 inputs.2.1 inputs.2.2.1 inputs.2.2.2.1 inputs.2.2.2.2
      let user_risk_score := 1 - risk_score_output
      let limit := initial_limit latest_statement.disposableIncome
        CONFIDENCE_SCORE user_risk_score
      let final_limit := apply_business_rules limit
      .ok { userId := user_id, creditLimit := final_limit,
            modelVersion := MODEL_VERSION }

/-- `credit_limit_table.put_item`: overwrite-by-key semantics of the
credit limit store, modelled as an association list keyed by `userId`. -/
def put_item (store : List (String × CreditLimitRecord))
    (rec : CreditLimitRecord) : List (String × CreditLimitRecord) :=
  store.filter (fun kv => decide (kv.1 ≠ rec.userId)) ++ [(rec.userId, rec)]

/-- One engine run over the store: on any error the store is left unchanged
(the `except` path of the handler writes nothing); on success the computed
record is put into the table. -/
def process_profile (store : List (String × CreditLimitRecord))
    (profile : Profile) : List (String × CreditLimitRecord) :=
  match calculate_initial_limit profile with
  | .error _ => store
  | .ok rec => put_item store rec

/-! ### Mobile-money statement analysis (src/metric_analyzer/app.py,
lines 203-311)

One parsed CSV record, after the per-field conversions the source applies
uniformly: `transactionDate` holds the result of `parse_momo_date` on the
raw `TRANSACTION DATE` field (`none` when `strptime` fails; the parsed
timestamp is modelled as a day number, days since 1970-01-01), and
`amount` / `balAfter` hold `clean_numeric` of the raw `AMOUNT` /
`BAL AFTER` fields.  The phone-number fields are kept raw, since the code's
logic on them (strip, drop non-digits, suffix match) is embedded itself. -/
structure MomoRow where
  transactionDate : Option ℤ
  transType : String
  amount : ℚ
  balAfter : ℚ
  fromNo : String
  toNo : String

/-- Python `str.upper()`, on the character list of a string. -/
def py_upper (s : String) : List Char := s.toList.map Char.toUpper

/-- Python `str.strip()`: drop whitespace from both ends of a character
list. -/
def py_strip (l : List Char) : List Char :=
  ((l.dropWhile Char.isWhitespace).reverse.dropWhile Char.isWhitespace).reverse

/-- `(year, month)` of a day number (days since 1970-01-01), proleptic
Gregorian: the bucketing key `date_obj.strftime('%Y-%m')`.  This is the
standard civil-from-days conversion; `Int.tdiv` is C-style truncating
division, as in the reference algorithm. -/
def momo_month_key (z : ℤ) : ℤ × ℤ :=
  let zd := z + 719468
  let era := Int.tdiv (if 0 ≤ zd then zd else zd - 146096) 146097
  let doe := zd - era * 146097
  let yoe := Int.tdiv (doe - Int.tdiv doe 1460 + Int.tdiv doe 36524 -
    Int.tdiv doe 146096) 365
  let doy := doe - (365 * yoe + Int.tdiv yoe 4 - Int.tdiv yoe 100)
  let mp := Int.tdiv (5 * doy + 2) 153
  let m := mp + (if mp < 10 then 3 else -9)
  (yoe + era * 400 + (if m ≤ 2 then 1 else 0), m)

/-- One step of the phone-number scan (src/metric_analyzer/app.py,
lines 237-244): once a suffix is found it is kept; otherwise a row whose
upper-cased, stripped transaction type is `DEBIT` or `PAYMENT` and whose
stripped `FROM NO.` is non-empty and contains a digit yields the last 9
digits of that field. -/
def momo_phone_step (acc : Option (List Char)) (row : MomoRow) : Option (List Char) :=
  match acc with
  | some s => some s
  | none =>
    let trans_type := py_strip (py_upper row.transType)
    if trans_type = "DEBIT".toList ∨ trans_type = "PAYMENT".toList then
      let from_phone_raw := py_strip row.fromNo.toList
      if from_phone_raw ≠ [] then
        let from_phone_cleaned := from_phone_raw.filter Char.isDigit
        if from_phone_cleaned ≠ [] then
          some (from_phone_cleaned.drop (from_phone_cleaned.length - 9))
        else none
      else none
    else none

/-- The applicant phone suffix inferred by the pre-scan loop. -/
def momo_user_phone_suffix (rows : List MomoRow) : Option (List Char) :=
  rows.foldl momo_phone_step none

/-- `latest_date` tracked by the pre-scan loop: maximum parsed transaction
date, `none` when no date parses. -/
def momo_latest_date (rows : List MomoRow) : Option ℤ :=
  rows.foldl
    (fun acc row =>
      match row.transactionDate, acc with
      | none, a => a
      | some d, none => some d
      | some d, some l => if l < d then some d else some l)
    none

/-- A `defaultdict(float)` keyed by month, updated with `+= amount`;
insertion order is preserved, as for a Python dict. -/
def add_amount (buckets : List ((ℤ × ℤ) × ℚ)) (k : ℤ × ℤ) (amount : ℚ) :
    List ((ℤ × ℤ) × ℚ) :=
  if buckets.any (fun kv => decide (kv.1 = k)) then
    buckets.map (fun kv => if kv.1 = k then (kv.1, kv.2 + amount) else kv)
  else buckets ++ [(k, amount)]

/-- The `monthly_lowest_balance` update: a `defaultdict` initialized to
`+inf`, set to `balance` whenever `balance` is below the current entry.  A
month's first transaction always replaces the `+inf` sentinel, so absence
of a key models the sentinel. -/
def update_lowest (buckets : List ((ℤ × ℤ) × ℚ)) (k : ℤ × ℤ) (balance : ℚ) :
    List ((ℤ × ℤ) × ℚ) :=
  if buckets.any (fun kv => decide (kv.1 = k)) then
    buckets.map (fun kv => if kv.1 = k ∧ balance < kv.2 then (kv.1, balance) else kv)
  else buckets ++ [(k, balance)]

/-- Python `round(q, 2)` on an exact value: banker's rounding of `q * 100`
to an integer, divided by 100. -/
def round_half_even (q : ℚ) : ℤ :=
  if q - ⌊q⌋ < 1 / 2 then ⌊q⌋
  else if 1 / 2 < q - ⌊q⌋ then ⌊q⌋ + 1
  else if ⌊q⌋ % 2 = 0 then ⌊q⌋ else ⌊q⌋ + 1

/-- `round(q, 2)`. -/
def round2 (q : ℚ) : ℚ := (round_half_even (q * 100) : ℚ) / 100

/-- `round(x, 2)` for the one real-valued metric (the sample standard
deviation of the balances). -/
noncomputable def round2_real (x : ℝ) : ℝ :=
  let f : ℤ := ⌊x * 100⌋
  let r := x * 100 - f
  ((if r < 1 / 2 then f
    else if 1 / 2 < r then f + 1
    else if f % 2 = 0 then f else f + 1 : ℤ) : ℝ) / 100

/-- The metrics dict returned by `analyze_mtn_momo_csv`
(src/metric_analyzer/app.py, lines 304-311). -/
structure MomoMetrics where
  avgMonthlyIncome : ℚ
  avgMonthlyExpenditure : ℚ
  disposableIncome : ℚ
  avgLowestMonthlyBalance : ℚ
  balanceVolatility : ℝ
  expenditureOutlierCount : ℕ

/-- The three monthly aggregation dicts, in source order: income,
expenditure, lowest balance. -/
abbrev MomoBuckets :=
  List ((ℤ × ℤ) × ℚ) × List ((ℤ × ℤ) × ℚ) × List ((ℤ × ℤ) × ℚ)

/-- The categorization loop body (src/metric_analyzer/app.py, lines 259-280)
for one dated transaction. -/
def momo_bucket_step (user_phone_suffix : List Char) (six_months_ago : ℤ)
    (b : MomoBuckets) (dr : ℤ × MomoRow) : MomoBuckets :=
  if dr.1 < six_months_ago then b
  else
    let month_key := momo_month_key dr.1
    let lows := update_lowest b.2.2 month_key dr.2.balAfter
    let to_phone_cleaned := (py_strip dr.2.toNo.toList).filter Char.isDigit
    let is_income := !to_phone_cleaned.isEmpty &&
      user_phone_suffix.isSuffixOf to_phone_cleaned
    if is_income then (add_amount b.1 month_key dr.2.amount, b.2.1, lows)
    else (b.1, add_amount b.2.1 month_key dr.2.amount, lows)

/-- `analyze_mtn_momo_csv` after CSV header detection and per-field
conversion (src/metric_analyzer/app.py, lines 224-311): pre-scan for the
applicant phone suffix and the latest date (each missing one is a fatal
`ValueError`), window the dated transactions to 180 days, aggregate by
month, filter outliers, and summarize. -/
noncomputable def analyze_mtn_momo (rows : List MomoRow) : Except String MomoMetrics :=
  match momo_user_phone_suffix rows with
  | none => .error "Could not dynamically identify user\x27s phone number."
  | some user_phone_suffix =>
    match momo_latest_date rows with
    | none => .error "Could not find any valid transaction dates in the statement."
    | some latest_date =>
      let six_months_ago := latest_date - 180
      let all_transactions := rows.filterMap
        (fun r => r.transactionDate.map (fun d => (d, r)))
      let buckets := all_transactions.foldl
        (momo_bucket_step user_phone_suffix six_months_ago) ([], [], [])
      let income_values := buckets.1.map (fun kv => kv.2)
      let expenditure_values := buckets.2.1.map (fun kv => kv.2)
      let income_no_outliers := (get_data_without_outliers income_values).1
      let expenditure_filtered := get_data_without_outliers expenditure_values
      let avg_monthly_income :=
        if income_no_outliers ≠ [] then sampleMean income_no_outliers else 0
      let avg_monthly_expenditure :=
        if expenditure_filtered.1 ≠ [] then sampleMean expenditure_filtered.1 else 0
      let lowest_balance_values := buckets.2.2.map (fun kv => kv.2)
      let avg_lowest_monthly_balance :=
        if lowest_balance_values ≠ [] then sampleMean lowest_balance_values else 0
      let disposable_income := avg_monthly_income - avg_monthly_expenditure
      let balance_volatility : ℝ :=
        if 1 < lowest_balance_values.length then sampleStdev lowest_balance_values
        else 0
      .ok { avgMonthlyIncome := round2 avg_monthly_income,
            avgMonthlyExpenditure := round2 avg_monthly_expenditure,
            disposableIncome := round2 disposable_income,
            avgLowestMonthlyBalance := round2 avg_lowest_monthly_balance,
            balanceVolatility := round2_real balance_volatility,
            expenditureOutlierCount := expenditure_filtered.2.length }

/-! ## Claim theorems -/

/-- C1: for every initial limit computed as
`disposableIncome * confidenceScore * userRiskScore`, the business clamp
returns 50 below 50, 1000 above 1000, and the floor (an integer) in
between; in particular 2000 clamps to 1000 and 10 clamps to 50. -/
theorem business_clamp_correct (di cs urs : ℚ) :
    (initial_limit di cs urs < 50 →
      apply_business_rules (initial_limit di cs urs) = 50) ∧
    (1000 < initial_limit di cs urs →
      apply_business_rules (initial_limit di cs urs) = 1000) ∧
    (50 ≤ initial_limit di cs urs → initial_limit di cs urs ≤ 1000 →
      apply_business_rules (initial_limit di cs urs) = ⌊initial_limit di cs urs⌋) ∧
    apply_business_rules 2000 = 1000 ∧ apply_business_rules 10 = 50 := by
  have hmin : ((MINIMUM_CREDIT_LIMIT : ℤ) : ℚ) = 50 := by
    norm_num [MINIMUM_CREDIT_LIMIT]
  have hmax : ((MAXIMUM_CREDIT_LIMIT : ℤ) : ℚ) = 1000 := by
    norm_num [MAXIMUM_CREDIT_LIMIT]
  refine ⟨?_, ?_, ?_, by decide, by decide⟩
  · intro h
    unfold apply_business_rules
    rw [hmin, if_pos h]
    decide
  · intro h
    unfold apply_business_rules
    rw [hmin, hmax, if_neg (by linarith), if_pos h]
    decide
  · intro h1 h2
    unfold apply_business_rules
    rw [hmin, hmax, if_neg (by linarith), if_neg (by linarith)]
    unfold pyInt
    rw [if_neg (by linarith)]

/-- Witness for C1: the clamp evaluated through the theorem at
concrete limits 10, 2000 and 123.5. -/
theorem business_clamp_correct_witness :
    apply_business_rules (initial_limit 10 1 1) = 50 ∧
    apply_business_rules (initial_limit 2000 1 1) = 1000 ∧
    apply_business_rules (initial_limit 123.5 1 1) = 123 := by
  refine ⟨(business_clamp_correct 10 1 1).1 (by norm_num [initial_limit]),
    (business_clamp_correct 2000 1 1).2.1 (by norm_num [initial_limit]),
    ?_⟩
  rw [(business_clamp_correct 123.5 1 1).2.2.1 (by norm_num [initial_limit])
    (by norm_num [initial_limit])]
  have e : initial_limit 123.5 1 1 = 123.5 := by norm_num [initial_limit]
  rw [e, Int.floor_eq_iff]
  norm_num

/-- C2 counterexample: with `confidenceScore = 0.8` and a negative
`disposableIncome` (allowed by the claim: "disposableIncome any real,
possibly negative"), raising `userRiskScore` from 0 to 1 (both inside
[0,1]) strictly *decreases* `initialLimit`, so "increasing userRiskScore
never decreases initialLimit" is false as stated. -/
theorem initial_limit_risk_monotonicity_fails :
    (0 : ℚ) ≤ 0 ∧ (0 : ℚ) ≤ 1 ∧ (0 : ℚ) ≤ 1 ∧ (1 : ℚ) ≤ 1 ∧ (0 : ℚ) < 1 ∧
    initial_limit (-100) 0.8 1 < initial_limit (-100) 0.8 0 := by
  norm_num [initial_limit]

/-- C2 amended: with `confidenceScore = 0.8` and `userRiskScore ∈ [0,1]`,
increasing `disposableIncome` never decreases `initialLimit` (for any real
`disposableIncome`), and increasing `userRiskScore` never decreases
`initialLimit` provided `disposableIncome` is non-negative. -/
theorem initial_limit_monotonicity :
    (∀ di di' urs : ℚ, 0 ≤ urs → urs ≤ 1 → di ≤ di' →
      initial_limit di 0.8 urs ≤ initial_limit di' 0.8 urs) ∧
    (∀ di urs urs' : ℚ, 0 ≤ di → 0 ≤ urs → urs ≤ urs' → urs' ≤ 1 →
      initial_limit di 0.8 urs ≤ initial_limit di 0.8 urs') := by
  constructor
  · intro di di' urs h0 _ hd
    unfold initial_limit
    nlinarith
  · intro di urs urs' hdi h0 hu h1
    unfold initial_limit
    nlinarith

/-- Witness for C2 amended: both monotonicity parts applied at concrete
inputs. -/
theorem initial_limit_monotonicity_witness :
    initial_limit 100 0.8 (1/2) ≤ initial_limit 200 0.8 (1/2) ∧
    initial_limit 100 0.8 (1/4) ≤ initial_limit 100 0.8 (3/4) :=
  ⟨initial_limit_monotonicity.1 100 200 (1/2) (by norm_num) (by norm_num)
      (by norm_num),
   initial_limit_monotonicity.2 100 (1/4) (3/4) (by norm_num) (by norm_num)
      (by norm_num) (by norm_num)⟩

/-- C4: whenever the latest statement's `avgMonthlyIncome` is exactly zero,
the values handed to fuzzy inference are exactly `dti = 1.0`,
`volatility = 1.0`, `minBalance = 0.0`, whatever the statement's
expenditure, volatility and balance fields are (no division by income
happens on this branch). -/
theorem zero_income_forces_default_risk_inputs
    (kyc : List (String × String)) (d : String) (e b v di : ℚ) :
    fuzzy_inputs_of kyc ⟨d, 0, e, b, v, di⟩ =
      (1, 1, 0, debt_honesty_of kyc, character_of kyc) := by
  simp [fuzzy_inputs_of, normalize_statement_inputs]

/-- C5: the outlier filter is a no-op (clean set = input, no outliers) on
every series with fewer than 3 points and on every series whose sample
standard deviation is 0. -/
theorem outlier_filter_noop (l : List ℚ)
    (h : l.length < 3 ∨ sampleStdev l = 0) :
    get_data_without_outliers l = (l, []) := by
  rcases h with h | h
  · unfold get_data_without_outliers
    simp [h]
  · have hv : sampleVariance l = 0 := (sampleStdev_eq_zero_iff l).mp h
    unfold get_data_without_outliers
    by_cases hlen : l.length < 3 <;> simp [hlen, hv]

/-- Witness for C5: the filter applied through the theorem to a 2-point
series and to a constant (stdev 0) 4-point series. -/
theorem outlier_filter_noop_witness :
    get_data_without_outliers [1, 2] = ([1, 2], []) ∧
    get_data_without_outliers [5, 5, 5, 5] = ([5, 5, 5, 5], []) :=
  ⟨outlier_filter_noop [1, 2] (Or.inl (by decide)),
   outlier_filter_noop [5, 5, 5, 5]
     (Or.inr ((sampleStdev_eq_zero_iff _).mpr
       (by norm_num [sampleVariance, sampleMean])))⟩

/-- C6: with no KYC answers at all, the scorer returns exactly
`characterScore = 7.5` and `capacityScore = 10`, and the engine's rescaling
feeds `debtHonesty = 1 + (10/15)*4 = 11/3` and
`character = 1 + (7.5/15)*4 = 3` into fuzzy inference. -/
theorem kyc_no_answers_defaults :
    calculate_kyc_scores [] = (7.5, 10) ∧
    debt_honesty_of [] = 1 + 10 / 15 * 4 ∧
    debt_honesty_of [] = 11 / 3 ∧
    character_of [] = 1 + 7.5 / 15 * 4 ∧
    character_of [] = 3 := by
  refine ⟨?_, ?_, ?_, ?_, ?_⟩ <;>
    norm_num [calculate_kyc_scores, debt_honesty_of, character_of]

/-- C3 counterexample: a 6-month expenditure series in which one month is
10x each of the other five (stdev is not 0).  Contrary to the claim, the
3-sigma filter flags nothing: the spike stays in the clean set and the
persisted `expenditureOutlierCount` is 0, not 1.  (With 6 points the
largest possible deviation is (n-1)/sqrt(n) = 5/sqrt(6) < 3 sample
standard deviations.) -/
theorem six_month_spike_not_flagged :
    sampleVariance [100, 100, 100, 100, 100, 1000] ≠ 0 ∧
    (get_data_without_outliers [100, 100, 100, 100, 100, 1000]).1 =
      [100, 100, 100, 100, 100, 1000] ∧
    (get_data_without_outliers [100, 100, 100, 100, 100, 1000]).2.length = 0 := by
  have h := no_outliers_of_length_le_ten [100, 100, 100, 100, 100, 1000]
    (by norm_num)
  refine ⟨?_, by rw [h], by rw [h]; rfl⟩
  have hv : sampleVariance [100, 100, 100, 100, 100, 1000] = 135000 := by
    norm_num [sampleVariance, sampleMean]
  rw [hv]
  norm_num

/-- C3 amended: for every 6-month expenditure series `[a,a,a,a,a,10a]`
(`a > 0`, so the sample stdev is not 0), the 3-sigma filter does NOT flag
the 10x month: the clean set is the whole series (so the spike stays in
the average) and the outlier list — hence the persisted
`expenditureOutlierCount` — is empty. -/
theorem six_month_spike_no_outlier (a : ℚ) (ha : 0 < a) :
    sampleVariance [a, a, a, a, a, 10 * a] ≠ 0 ∧
    get_data_without_outliers [a, a, a, a, a, 10 * a] =
      ([a, a, a, a, a, 10 * a], []) := by
  constructor
  · have hv : sampleVariance [a, a, a, a, a, 10 * a] = 27 / 2 * a ^ 2 := by
      simp only [sampleVariance, sampleMean, List.sum_cons, List.sum_nil,
        List.map_cons, List.map_nil, List.length_cons, List.length_nil]
      push_cast
      ring_nf
    rw [hv]
    positivity
  · exact no_outliers_of_length_le_ten _ (by norm_num)

/-- Witness for C3 amended: the amended theorem applied at `a = 7`. -/
theorem six_month_spike_no_outlier_witness :
    sampleVariance [7, 7, 7, 7, 7, 10 * 7] ≠ 0 ∧
    get_data_without_outliers [7, 7, 7, 7, 7, 10 * 7] =
      ([7, 7, 7, 7, 7, 10 * 7], []) :=
  six_month_spike_no_outlier 7 (by norm_num)

/-! ### Bounds on the KYC marking tables, for C7 -/

theorem residence_map_bounds (a : Option String) :
    0 ≤ residence_map a ∧ residence_map a ≤ 5 := by
  unfold residence_map
  split <;> norm_num

theorem borrow_history_map_bounds (a : Option String) :
    0 ≤ borrow_history_map a ∧ borrow_history_map a ≤ 5 := by
  unfold borrow_history_map
  split <;> norm_num

theorem repayment_ability_map_bounds (a : Option String) :
    0 ≤ repayment_ability_map a ∧ repayment_ability_map a ≤ 5 := by
  unfold repayment_ability_map
  split <;> norm_num

theorem income_map_bounds (a : Option String) :
    0 ≤ income_map a ∧ income_map a ≤ 5 := by
  unfold income_map
  split <;> norm_num

theorem job_duration_map_bounds (a : Option String) :
    0 ≤ job_duration_map a ∧ job_duration_map a ≤ 5 := by
  unfold job_duration_map
  split <;> norm_num

theorem borrow_source_map_bounds (a : Option String) :
    0 ≤ borrow_source_map a ∧ borrow_source_map a ≤ 5 := by
  unfold borrow_source_map
  split <;> norm_num

theorem kyc_scores_bounds (kyc : List (String × String)) :
    (0 ≤ (calculate_kyc_scores kyc).1 ∧ (calculate_kyc_scores kyc).1 ≤ 15) ∧
    (0 ≤ (calculate_kyc_scores kyc).2 ∧ (calculate_kyc_scores kyc).2 ≤ 15) := by
  unfold calculate_kyc_scores
  split
  · norm_num
  · obtain ⟨h1a, h1b⟩ := residence_map_bounds (kyc.lookup "residenceDuration")
    obtain ⟨h2a, h2b⟩ := borrow_history_map_bounds (kyc.lookup "borrowingHistory")
    obtain ⟨h3a, h3b⟩ := repayment_ability_map_bounds (kyc.lookup "repaymentAbility")
    obtain ⟨h4a, h4b⟩ := income_map_bounds (kyc.lookup "monthlyIncomeRange")
    obtain ⟨h5a, h5b⟩ := job_duration_map_bounds (kyc.lookup "jobDuration")
    obtain ⟨h6a, h6b⟩ := borrow_source_map_bounds (kyc.lookup "borrowingSource")
    constructor <;> constructor <;> simp <;> linarith

/-- C7: for every KYC answer map and every latest-statement metric values
(including negative or huge raw numbers), the five values passed into
fuzzy inference are in range: `dti`, `volatility`, `minBalance` lie in
`[0,1]` and `debtHonesty`, `character` lie in `[1,5]`. -/
theorem fuzzy_inputs_in_range (kyc : List (String × String))
    (latest : Statement) :
    (0 ≤ (fuzzy_inputs_of kyc latest).1 ∧ (fuzzy_inputs_of kyc latest).1 ≤ 1) ∧
    (0 ≤ (fuzzy_inputs_of kyc latest).2.1 ∧
      (fuzzy_inputs_of kyc latest).2.1 ≤ 1) ∧
    (0 ≤ (fuzzy_inputs_of kyc latest).2.2.1 ∧
      (fuzzy_inputs_of kyc latest).2.2.1 ≤ 1) ∧
    (1 ≤ (fuzzy_inputs_of kyc latest).2.2.2.1 ∧
      (fuzzy_inputs_of kyc latest).2.2.2.1 ≤ 5) ∧
    (1 ≤ (fuzzy_inputs_of kyc latest).2.2.2.2 ∧
      (fuzzy_inputs_of kyc latest).2.2.2.2 ≤ 5) := by
  have hclamp : ∀ x : ℚ, 0 ≤ min 1 (max 0 x) ∧ min 1 (max 0 x) ≤ 1 :=
    fun x => ⟨le_min zero_le_one (le_max_left 0 x), min_le_left 1 _⟩
  have hnorm : (0 ≤ (normalize_statement_inputs latest).1 ∧
        (normalize_statement_inputs latest).1 ≤ 1) ∧
      (0 ≤ (normalize_statement_inputs latest).2.1 ∧
        (normalize_statement_inputs latest).2.1 ≤ 1) ∧
      (0 ≤ (normalize_statement_inputs latest).2.2 ∧
        (normalize_statement_inputs latest).2.2 ≤ 1) := by
    unfold normalize_statement_inputs
    split
    · norm_num
    · exact ⟨hclamp _, hclamp _, hclamp _⟩
  have hk := kyc_scores_bounds kyc
  have hdh : 1 ≤ debt_honesty_of kyc ∧ debt_honesty_of kyc ≤ 5 := by
    unfold debt_honesty_of
    constructor <;> nlinarith [hk.2.1, hk.2.2]
  have hch : 1 ≤ character_of kyc ∧ character_of kyc ≤ 5 := by
    unfold character_of
    constructor <;> nlinarith [hk.1.1, hk.1.2]
  exact ⟨by simpa [fuzzy_inputs_of] using hnorm.1,
    by simpa [fuzzy_inputs_of] using hnorm.2.1,
    by simpa [fuzzy_inputs_of] using hnorm.2.2,
    by simpa [fuzzy_inputs_of] using hdh,
    by simpa [fuzzy_inputs_of] using hch⟩

/-! ### C8: mobile-money statements without DEBIT/PAYMENT rows -/

theorem momo_phone_step_none (row : MomoRow)
    (h : (py_strip (py_upper row.transType) = "DEBIT".toList ∨
        py_strip (py_upper row.transType) = "PAYMENT".toList) →
      py_strip row.fromNo.toList = []) :
    momo_phone_step none row = none := by
  unfold momo_phone_step
  by_cases ht : py_strip (py_upper row.transType) = "DEBIT".toList ∨
      py_strip (py_upper row.transType) = "PAYMENT".toList
  · rw [if_pos ht, h ht]
    simp
  · rw [if_neg ht]

theorem momo_phone_fold_none (rows : List MomoRow)
    (h : ∀ row ∈ rows, (py_strip (py_upper row.transType) = "DEBIT".toList ∨
        py_strip (py_upper row.transType) = "PAYMENT".toList) →
      py_strip row.fromNo.toList = []) :
    momo_user_phone_suffix rows = none := by
  unfold momo_user_phone_suffix
  induction rows with
  | nil => rfl
  | cons r t ih =>
    rw [List.foldl_cons, momo_phone_step_none r (h r (by simp))]
    exact ih (fun row hrow => h row (by simp [hrow]))

/-- C8: for every mobile-money statement in which no record has transaction
type DEBIT or PAYMENT together with a non-empty (after stripping)
`FROM NO.` field, the analyzer fails with the structural "could not identify
phone number" error, producing no metrics. -/
theorem momo_no_debit_or_payment_fails (rows : List MomoRow)
    (h : ∀ row ∈ rows, (py_strip (py_upper row.transType) = "DEBIT".toList ∨
        py_strip (py_upper row.transType) = "PAYMENT".toList) →
      py_strip row.fromNo.toList = []) :
    analyze_mtn_momo rows =
      .error "Could not dynamically identify user\x27s phone number." := by
  unfold analyze_mtn_momo
  rw [momo_phone_fold_none rows h]

/-- Witness for C8: a one-row ledger whose only record has type `CASH IN`,
evaluated through the theorem. -/
theorem momo_no_debit_or_payment_fails_witness :
    analyze_mtn_momo
        [⟨some 20000, "CASH IN", 5, 10, "233240000000", "233550000000"⟩] =
      .error "Could not dynamically identify user\x27s phone number." :=
  momo_no_debit_or_payment_fails _ (by
    intro row hrow hor
    simp only [List.mem_singleton] at hrow
    subst hrow
    rcases hor with h | h <;> exact absurd h (by decide))

/-! ### C9: profiles with no statement analysis -/

/-- C9: for every profile whose `statementMetrics.perStatement` collection
is empty, the limit calculator fails with an explicit error, and the
credit-limit store is unchanged: no `CreditLimitRecord` is written. -/
theorem empty_statements_fatal (profile : Profile)
    (store : List (String × CreditLimitRecord))
    (h : profile.perStatement = []) :
    (∃ msg, calculate_initial_limit profile = .error msg) ∧
    process_profile store profile = store := by
  have hcalc : ∃ msg, calculate_initial_limit profile = .error msg := by
    unfold calculate_initial_limit
    by_cases hu : profile.userId.getD "" = ""
    · exact ⟨_, by rw [if_pos hu]⟩
    · rw [if_neg hu, h]
      exact ⟨_, rfl⟩
  refine ⟨hcalc, ?_⟩
  obtain ⟨msg, hm⟩ := hcalc
  unfold process_profile
  rw [hm]

/-- Witness for C9: the theorem applied to a concrete profile with a
userId, no KYC answers and no statements, over an empty store. -/
theorem empty_statements_fatal_witness :
    (∃ msg, calculate_initial_limit ⟨some "user-1", [], []⟩ = .error msg) ∧
    process_profile [] ⟨some "user-1", [], []⟩ = [] :=
  empty_statements_fatal ⟨some "user-1", [], []⟩ [] rfl

/-! ### C10: the outlier count counts distinct values -/

/-- C10: on the non-trivial branch of the filter (3 or more points,
non-zero stdev) the outlier list has no duplicate values, its members are
exactly the values of the input exceeding the 3-sigma threshold, and the
clean set drops every occurrence of every such value — so the persisted
`expenditureOutlierCount` counts distinct outlying values, not outlying
months. -/
theorem outlier_count_counts_distinct_values (l : List ℚ)
    (hlen : ¬ l.length < 3) (hv : ¬ sampleVariance l = 0) :
    (get_data_without_outliers l).2.Nodup ∧
    (∀ p, p ∈ (get_data_without_outliers l).2 ↔
      p ∈ l ∧ exceeds_three_sigma (sampleMean l) (sampleVariance l) p = true) ∧
    (get_data_without_outliers l).1 =
      l.filter (fun p =>
        !exceeds_three_sigma (sampleMean l) (sampleVariance l) p) := by
  unfold get_data_without_outliers
  simp only [if_neg hlen, if_neg hv]
  refine ⟨List.nodup_dedup _, ?_, ?_⟩
  · intro p
    rw [List.mem_dedup, List.mem_filter]
  · apply List.filter_congr
    intro x hx
    by_cases hfx : exceeds_three_sigma (sampleMean l) (sampleVariance l) x = true
    · simp [List.mem_dedup, List.mem_filter, hx, hfx]
    · simp [List.mem_dedup, List.mem_filter, hx, hfx]

/-- Witness for C10: a 21-month series (19 zero months and two months with
the same expenditure 100).  Both 100-months exceed the 3-sigma threshold;
both are removed from the clean set, yet the outlier list is `[100]`, so
the persisted count is 1, not 2. -/
theorem outlier_count_counts_distinct_values_witness :
    (get_data_without_outliers
        [0, 0, 0, 0, 0, 0, 0, 0, 0, 0, 0, 0, 0, 0, 0, 0, 0, 0, 0, 100, 100]).2.Nodup ∧
    (get_data_without_outliers
        [0, 0, 0, 0, 0, 0, 0, 0, 0, 0, 0, 0, 0, 0, 0, 0, 0, 0, 0, 100, 100]) =
      ([0, 0, 0, 0, 0, 0, 0, 0, 0, 0, 0, 0, 0, 0, 0, 0, 0, 0, 0], [100]) ∧
    (get_data_without_outliers
        [0, 0, 0, 0, 0, 0, 0, 0, 0, 0, 0, 0, 0, 0, 0, 0, 0, 0, 0, 100, 100]).2.length
      = 1 := by
  have hM : sampleMean
      [0, 0, 0, 0, 0, 0, 0, 0, 0, 0, 0, 0, 0, 0, 0, 0, 0, 0, 0, 100, 100] =
      200 / 21 := by
    norm_num [sampleMean]
  have hV : sampleVariance
      [0, 0, 0, 0, 0, 0, 0, 0, 0, 0, 0, 0, 0, 0, 0, 0, 0, 0, 0, 100, 100] =
      19000 / 21 := by
    norm_num [sampleVariance, sampleMean]
  have h0 : exceeds_three_sigma (200 / 21) (19000 / 21) 0 = false := by
    simp only [exceeds_three_sigma, decide_eq_false_iff_not, not_lt]
    norm_num
  have h100 : exceeds_three_sigma (200 / 21) (19000 / 21) 100 = true := by
    simp only [exceeds_three_sigma, decide_eq_true_eq]
    norm_num
  have hnodup := (outlier_count_counts_distinct_values
    [0, 0, 0, 0, 0, 0, 0, 0, 0, 0, 0, 0, 0, 0, 0, 0, 0, 0, 0, 100, 100]
    (by norm_num) (by rw [hV]; norm_num)).1
  have hgd : get_data_without_outliers
      [0, 0, 0, 0, 0, 0, 0, 0, 0, 0, 0, 0, 0, 0, 0, 0, 0, 0, 0, 100, 100] =
      ([0, 0, 0, 0, 0, 0, 0, 0, 0, 0, 0, 0, 0, 0, 0, 0, 0, 0, 0], [100]) := by
    unfold get_data_without_outliers
    rw [if_neg (by norm_num), hM, hV, if_neg (by norm_num)]
    simp [h0, h100]
  exact ⟨hnodup, hgd, by rw [hgd]; rfl⟩
